import Mathlib

/-!
Shallow embedding of the annotation web app in src/app.py.

Modelling conventions:
- A pandas DataFrame is a list of column names together with a list of rows.
- A spreadsheet cell value is a `Val`: either a string or an integer, because
  the runtime type of a sentence id (int vs str) matters to the program.
- The rows returned by `sheet.get_all_records()` are modelled as `AnnRow`
  records keyed by the sheet header documented in the code
  (annotator_id | sentence_id | label | timestamp).
- `random.choice(lst)` is modelled by an extra index parameter `k`: the
  chosen element is the one at position `k % lst.length`.
- `datetime.utcnow().isoformat()` is an external effect; the timestamp is
  passed to the embedded function as a parameter.
-/

/-- A Python runtime value as it appears in a DataFrame or sheet cell:
either a string or an integer. -/
inductive Val where
  | str : String → Val
  | int : Int → Val
deriving DecidableEq, Repr

/-- Python str(v): the string itself, or the decimal rendering of an int. -/
def Val.toStr : Val → String
  | .str s => s
  | .int n => toString n

/-- Python equality between a cell value and a string, as used by the
pandas comparison df[col] == some_string: an int never equals a str. -/
def Val.eqStr : Val → String → Bool
  | .str t, s => t == s
  | .int _, _ => false

/-- A tabular DataFrame: column names plus rows of cells.  Each row is
positional, aligned with the column list. -/
structure CSV where
  columns : List String
  rows : List (List Val)
deriving DecidableEq, Repr

/-- Column extraction df[c].tolist(): the cell of each row at the position
of column c.  (Only used where the column is present, as in the source.) -/
def CSV.colVals (df : CSV) (c : String) : List Val :=
  df.rows.map (fun r => r.getD (df.columns.indexOf c) (Val.str ""))

/-- load_data (src/app.py lines 38-46): read the dataset and check that the
required columns sentence_id and opposite_framing_sentence are present,
raising ValueError (modelled as Except.error) if one is missing; otherwise
return the table unchanged.  The checks happen in the loop order of the
source. -/
def load_data (df : CSV) : Except String CSV :=
  if "sentence_id" ∈ df.columns then
    if "opposite_framing_sentence" ∈ df.columns then
      Except.ok df
    else
      Except.error "Column opposite_framing_sentence not found"
  else
    Except.error "Column sentence_id not found"

/-- One record returned by sheet.get_all_records(): a dict keyed by the
sheet header annotator_id | sentence_id | label | timestamp. -/
structure AnnRow where
  annotator_id : Val
  sentence_id : Val
  label : Val
  timestamp : Val
deriving DecidableEq, Repr

/-- The annotations DataFrame: its column names and its rows. -/
structure AnnotationsDF where
  columns : List String
  rows : List AnnRow
deriving DecidableEq, Repr

/-- The sheet header row assumed by the code. -/
def annHeaders : List String :=
  ["annotator_id", "sentence_id", "label", "timestamp"]

/-- load_annotations_df (src/app.py lines 70-82): if the sheet has no
records, an empty DataFrame with the four header columns; otherwise the
DataFrame of the records, with the sentence_id column cast to str. -/
def load_annotations_df (records : List AnnRow) : AnnotationsDF :=
  if records.isEmpty then
    ⟨annHeaders, []⟩
  else
    ⟨annHeaders,
     records.map (fun r => { r with sentence_id := Val.str r.sentence_id.toStr })⟩

/-- append_annotation (src/app.py lines 85-89): append the single row
[annotator_id, str(sentence_id), label, timestamp] to the sheet.  The
timestamp is a parameter (datetime.utcnow().isoformat() in the source). -/
def append_annotation (sheet : List (List String)) (annotator_id : String)
    (sentence_id : Val) (label : String) (timestamp : String) :
    List (List String) :=
  sheet ++ [[annotator_id, sentence_id.toStr, label, timestamp]]

/-- set(data_df[sentence_id].astype(str).tolist()) from get_next_sentence_id
(line 98): the dataset ids as strings, as a deduplicated list. -/
def allIds (data_df : CSV) : List String :=
  ((data_df.colVals "sentence_id").map Val.toStr).dedup

/-- annotations_df[annotations_df[annotator_id] == annotator_id]
(lines 100 and 122): the rows of the given annotator. -/
def userAnn (annotations_df : AnnotationsDF) (annotator_id : String) :
    List AnnRow :=
  annotations_df.rows.filter (fun r => r.annotator_id.eqStr annotator_id)

/-- set(user_ann[sentence_id].astype(str).tolist()) (line 101): the ids the
annotator has already done, as strings, deduplicated. -/
def alreadyDone (annotations_df : AnnotationsDF) (annotator_id : String) :
    List String :=
  ((userAnn annotations_df annotator_id).map (fun r => r.sentence_id.toStr)).dedup

/-- list(all_ids - already_done) (line 103): the set difference as a list. -/
def remainingIds (data_df : CSV) (annotations_df : AnnotationsDF)
    (annotator_id : String) : List String :=
  (allIds data_df).filter
    (fun x => decide (x ∉ alreadyDone annotations_df annotator_id))

/-- get_next_sentence_id (src/app.py lines 92-107): None if nothing remains,
otherwise random.choice(remaining), modelled by the draw index k. -/
def get_next_sentence_id (data_df : CSV) (annotations_df : AnnotationsDF)
    (annotator_id : String) (k : Nat) : Option String :=
  if (remainingIds data_df annotations_df annotator_id).isEmpty then
    none
  else
    (remainingIds data_df annotations_df annotator_id).get?
      (k % (remainingIds data_df annotations_df annotator_id).length)

/-- get_user_progress (src/app.py lines 119-124): the number of the
annotator's rows and the dataset size, as (done, total). -/
def get_user_progress (data_df : CSV) (annotations_df : AnnotationsDF)
    (annotator_id : String) : Nat × Nat :=
  ((userAnn annotations_df annotator_id).length, data_df.rows.length)

/-- assign_random_label_order (src/app.py lines 127-129):
random.sample of the two labels, modelled by a Boolean coin. -/
def assign_random_label_order (b : Bool) : List String :=
  if b then ["Positive", "Negative"] else ["Negative", "Positive"]

/-- The per-browser session state touched by the identity page:
st.session_state.annotator_id and st.session_state.label_order, each
possibly unset. -/
structure SessionState where
  annotator_id : Option String
  label_order : Option (List String)
deriving DecidableEq, Repr

/-- The session before any identity was entered: no key is set. -/
def initialSession : SessionState := ⟨none, none⟩

/-- Python str.strip(): drop leading and trailing whitespace characters. -/
def pyStrip (s : String) : String :=
  ⟨((s.data.dropWhile Char.isWhitespace).reverse.dropWhile
      Char.isWhitespace).reverse⟩

/-- The identity page submit branch (src/app.py lines 147-154), entered when
the start button was pressed: if the stripped name is empty, warn and stop
with the session unchanged (returned flag true = warning shown); otherwise
set annotator_id to the stripped name and draw a label order.  Python
str.strip is modelled by pyStrip. -/
def identity_submit (s : SessionState) (name : String) (b : Bool) :
    SessionState × Bool :=
  if (pyStrip name).isEmpty then
    (s, true)
  else
    ({ s with
        annotator_id := some (pyStrip name)
        label_order := some ( assign_random_label_order b) },
     false)

/-- Outcome of the submit handler: the missing-label warning, or a saved
annotation. -/
inductive SubmitResult where
  | warned
  | saved
deriving DecidableEq, Repr

/-- The submit handler (src/app.py lines 235-247): with no label selected,
warn and stop without writing; with a label, append one annotation row. -/
def submit_handler (sheet : List (List String)) (annotator_id : String)
    (current_id : Val) (label : Option String) (timestamp : String) :
    List (List String) × SubmitResult :=
  match label with
  | none => (sheet, SubmitResult.warned)
  | some l =>
      ( append_annotation sheet annotator_id current_id l timestamp,
        SubmitResult.saved)

/-! Concrete fixtures used by the examples and witnesses. -/

/-- The example dataset of the spec: sentence ids 1, 2, 3. -/
def exData : CSV :=
  ⟨["sentence_id", "opposite_framing_sentence"],
   [[Val.str "1", Val.str "a"], [Val.str "2", Val.str "b"],
    [Val.str "3", Val.str "c"]]⟩

/-- Records of annotator alice on ids 1 and 2. -/
def exRecords : List AnnRow :=
  [⟨Val.str "alice", Val.str "1", Val.str "Positive", Val.str "t1"⟩,
   ⟨Val.str "alice", Val.str "2", Val.str "Negative", Val.str "t2"⟩]

/-- The annotations DataFrame loaded from those records. -/
def exAnn : AnnotationsDF := load_annotations_df exRecords

/-- The same store after alice also annotated id 3: full coverage. -/
def exAnnFull : AnnotationsDF :=
  load_annotations_df
    (exRecords ++ [⟨Val.str "alice", Val.str "3", Val.str "Positive", Val.str "t3"⟩])

/-- The same store with an extra row by a different annotator, bob. -/
def exAnnOther : AnnotationsDF :=
  load_annotations_df
    (exRecords ++ [⟨Val.str "bob", Val.str "3", Val.str "Negative", Val.str "t4"⟩])

/-- A dataset whose only sentence id is the integer 10. -/
def exDataInt : CSV :=
  ⟨["sentence_id", "opposite_framing_sentence"], [[Val.int 10, Val.str "A"]]⟩

/-- A store where alice annotated the string id 10. -/
def exAnnStr : AnnotationsDF :=
  load_annotations_df
    [⟨Val.str "alice", Val.str "10", Val.str "Positive", Val.str "t"⟩]

/-- A dataset table missing the required text column. -/
def exBad : CSV := ⟨["sentence_id", "text"], []⟩

/-! Shared helper lemmas. -/

/-- Any id produced by get_next_sentence_id is a dataset id the annotator
has not already done. -/
theorem get_next_mem {d : CSV} {a : AnnotationsDF} {u : String} {k : Nat}
    {x : String} (h : get_next_sentence_id d a u k = some x) :
    x ∈ allIds d ∧ x ∉ alreadyDone a u := by
  unfold get_next_sentence_id at h
  split at h
  · exact Option.noConfusion h
  · have hx : x ∈ remainingIds d a u := List.get?_mem h
    unfold remainingIds at hx
    have hm := List.mem_filter.mp hx
    exact ⟨hm.1, of_decide_eq_true hm.2⟩

/-! Claim theorems. -/

/-- Claim C1: whenever get_next_sentence_id returns an id, that id is a
dataset id not already annotated by the given annotator; whenever some
dataset id is not already annotated, an id in that difference is returned
(never none); and on the example dataset with ids 1, 2, 3 where alice
annotated 1 and 2, every possible random draw returns 3. -/
theorem c1_get_next_in_difference :
    (∀ (d : CSV) (a : AnnotationsDF) (u : String) (k : Nat) (x : String),
        get_next_sentence_id d a u k = some x →
        x ∈ allIds d ∧ x ∉ alreadyDone a u)
    ∧ (∀ (d : CSV) (a : AnnotationsDF) (u : String) (k : Nat),
        (∃ x, x ∈ allIds d ∧ x ∉ alreadyDone a u) →
        ∃ x, get_next_sentence_id d a u k = some x ∧
          x ∈ allIds d ∧ x ∉ alreadyDone a u)
    ∧ ∀ k : Nat, get_next_sentence_id exData exAnn "alice" k = some "3" := by
  refine ⟨fun d a u k x h => get_next_mem h, ?_, ?_⟩
  · rintro d a u k ⟨x, hx, hnx⟩
    have hmem : x ∈ remainingIds d a u := by
      unfold remainingIds
      exact List.mem_filter.mpr ⟨hx, decide_eq_true hnx⟩
    have hne : remainingIds d a u ≠ [] := List.ne_nil_of_mem hmem
    have hempty : (remainingIds d a u).isEmpty = false := by
      simp [List.isEmpty_iff]
      exact hne
    have hlt : k % (remainingIds d a u).length < (remainingIds d a u).length :=
      Nat.mod_lt _ (List.length_pos.mpr hne)
    have heq : get_next_sentence_id d a u k =
        some ((remainingIds d a u).get ⟨k % (remainingIds d a u).length, hlt⟩) := by
      unfold get_next_sentence_id
      rw [hempty]
      simp [List.get?_eq_get hlt]
    exact ⟨_, heq, get_next_mem heq⟩
  · intro k
    have hrem : remainingIds exData exAnn "alice" = ["3"] := by decide
    unfold get_next_sentence_id
    rw [hrem]
    simp [Nat.mod_one]

/-- Witness for C1, at the example input of the spec: the returned id lies
in the difference, and the non-empty difference forces a returned id. -/
theorem c1_witness :
    get_next_sentence_id exData exAnn "alice" 0 = some "3" ∧
    ("3" ∈ allIds exData ∧ "3" ∉ alreadyDone exAnn "alice") ∧
    ∃ x, get_next_sentence_id exData exAnn "alice" 5 = some x ∧
      x ∈ allIds exData ∧ x ∉ alreadyDone exAnn "alice" := by
  have h1 : get_next_sentence_id exData exAnn "alice" 0 = some "3" :=
    c1_get_next_in_difference.2.2 0
  exact ⟨h1, c1_get_next_in_difference.1 exData exAnn "alice" 0 "3" h1,
    c1_get_next_in_difference.2.1 exData exAnn "alice" 5
      ⟨"3", by decide, by decide⟩⟩

/-- Claim C2: when the annotated ids cover all dataset ids,
get_next_sentence_id returns none. -/
theorem c2_exhausted_returns_none :
    ∀ (d : CSV) (a : AnnotationsDF) (u : String) (k : Nat),
      (∀ x ∈ allIds d, x ∈ alreadyDone a u) →
      get_next_sentence_id d a u k = none := by
  intro d a u k hsub
  have hrem : remainingIds d a u = [] := by
    unfold remainingIds
    rw [List.filter_eq_nil_iff]
    intro x hx
    simp only [decide_eq_true_eq, not_not]
    exact hsub x hx
  unfold get_next_sentence_id
  rw [hrem]
  rfl

/-- Witness for C2: alice has annotated all three example ids. -/
theorem c2_witness :
    get_next_sentence_id exData exAnnFull "alice" 0 = none :=
  c2_exhausted_returns_none exData exAnnFull "alice" 0 (by decide)

/-- Claim C3: load_data fails exactly when the table lacks the column
sentence_id or lacks the required text column opposite_framing_sentence,
and otherwise returns the table unchanged. -/
theorem c3_load_data_requires_columns :
    ∀ df : CSV,
      ((∃ e, load_data df = Except.error e) ↔
        ("sentence_id" ∉ df.columns ∨
          "opposite_framing_sentence" ∉ df.columns))
      ∧ (("sentence_id" ∈ df.columns ∧
            "opposite_framing_sentence" ∈ df.columns) →
          load_data df = Except.ok df) := by
  intro df
  by_cases h1 : "sentence_id" ∈ df.columns <;>
    by_cases h2 : "opposite_framing_sentence" ∈ df.columns <;>
      simp [load_data, h1, h2]

/-- Witness for C3: the example table loads, a table missing the text
column errors. -/
theorem c3_witness :
    load_data exData = Except.ok exData ∧
    ∃ e, load_data exBad = Except.error e :=
  ⟨(c3_load_data_requires_columns exData).2 ⟨by decide, by decide⟩,
   (c3_load_data_requires_columns exBad).1.mpr (Or.inr (by decide))⟩

/-- Claim C4: append_annotation adds exactly one row, leaves all existing
rows unchanged, and the new last row is
[annotator_id, str(sentence_id), label, timestamp] in header order. -/
theorem c4_append_one_row :
    ∀ (sheet : List (List String)) (u : String) (sid : Val) (l ts : String),
      ( append_annotation sheet u sid l ts).length = sheet.length + 1 ∧
      ( append_annotation sheet u sid l ts).take sheet.length = sheet ∧
      ( append_annotation sheet u sid l ts).getLast? =
        some [u, sid.toStr, l, ts] := by
  intro sheet u sid l ts
  unfold append_annotation
  exact ⟨by simp, List.take_left sheet _, List.getLast?_concat _⟩

/-- Claim C5: get_user_progress returns the count of the annotator's own
rows paired with the dataset size, and two stores agreeing on the
annotator's rows give the same progress. -/
theorem c5_progress_counts_user_rows :
    ∀ (d : CSV) (a : AnnotationsDF) (u : String),
      get_user_progress d a u =
        (a.rows.countP (fun r => r.annotator_id.eqStr u), d.rows.length)
      ∧ ∀ a2 : AnnotationsDF,
          a.rows.filter (fun r => r.annotator_id.eqStr u) =
            a2.rows.filter (fun r => r.annotator_id.eqStr u) →
          get_user_progress d a u = get_user_progress d a2 u := by
  intro d a u
  constructor
  · unfold get_user_progress userAnn
    rw [List.countP_eq_length_filter]
  · intro a2 h
    unfold get_user_progress userAnn
    rw [h]

/-- Witness for C5: alice has done 2 of 3, and a row by bob changes
nothing. -/
theorem c5_witness :
    get_user_progress exData exAnn "alice" = (2, 3) ∧
    get_user_progress exData exAnn "alice" =
      get_user_progress exData exAnnOther "alice" := by
  refine ⟨?_, (c5_progress_counts_user_rows exData exAnn "alice").2
    exAnnOther (by decide)⟩
  rw [(c5_progress_counts_user_rows exData exAnn "alice").1]
  decide

/-- Claim C6: submitting with no label selected leaves the store unchanged
and produces the warning outcome. -/
theorem c6_missing_label_rejected :
    ∀ (sheet : List (List String)) (u : String) (cid : Val) (ts : String),
      submit_handler sheet u cid none ts = (sheet, SubmitResult.warned) := by
  intro sheet u cid ts
  rfl

/-- Claim C7: on the identity page, a blank or whitespace-only id leaves the
session unchanged with a warning, while a non-blank id sets annotator_id to
the trimmed id without a warning. -/
theorem c7_identity_transition :
    ∀ (s : SessionState) (name : String) (b : Bool),
      ((pyStrip name).isEmpty = true → identity_submit s name b = (s, true))
      ∧ ((pyStrip name).isEmpty = false →
          (identity_submit s name b).1.annotator_id = some (pyStrip name) ∧
          (identity_submit s name b).2 = false) := by
  intro s name b
  constructor
  · intro h
    simp [identity_submit, h]
  · intro h
    simp [identity_submit, h]

/-- Witness for C7: a whitespace-only name is rejected, a padded name is
accepted with the trimmed id stored. -/
theorem c7_witness :
    identity_submit initialSession "   " true = (initialSession, true) ∧
    (identity_submit initialSession " alice " false).1.annotator_id =
      some "alice" := by
  have h :=
    ((c7_identity_transition initialSession " alice " false).2 (by decide)).1
  exact ⟨(c7_identity_transition initialSession "   " true).1 (by decide),
    by rw [h]; decide⟩

/-- Claim C8: two annotation stores that agree on the given annotator's rows
give identical selection behaviour for that annotator, for every random
draw. -/
theorem c8_selection_noninterference :
    ∀ (d : CSV) (a1 a2 : AnnotationsDF) (u : String),
      a1.rows.filter (fun r => r.annotator_id.eqStr u) =
        a2.rows.filter (fun r => r.annotator_id.eqStr u) →
      ∀ k : Nat, get_next_sentence_id d a1 u k = get_next_sentence_id d a2 u k := by
  intro d a1 a2 u h k
  have hd : alreadyDone a1 u = alreadyDone a2 u := by
    unfold alreadyDone userAnn
    rw [h]
  unfold get_next_sentence_id remainingIds
  rw [hd]

/-- Witness for C8: adding a row by bob does not change the draw offered to
alice. -/
theorem c8_witness :
    get_next_sentence_id exData exAnn "alice" 0 =
      get_next_sentence_id exData exAnnOther "alice" 0 :=
  c8_selection_noninterference exData exAnn exAnnOther "alice" (by decide) 0

/-- Claim C9: with no stored records, load_annotations_df returns a
DataFrame with zero rows whose columns are exactly
annotator_id, sentence_id, label, timestamp. -/
theorem c9_empty_records_empty_df :
    load_annotations_df [] =
      ⟨["annotator_id", "sentence_id", "label", "timestamp"], []⟩ := rfl

/-- Claim C10: sentence-id membership is decided up to string
representation: if some row of the annotator has a sentence_id whose string
form equals the string form of a value v, then get_next_sentence_id never
returns the string form of v, whatever the runtime type of either id. -/
theorem c10_membership_up_to_string :
    ∀ (d : CSV) (a : AnnotationsDF) (u : String) (k : Nat) (r : AnnRow)
      (v : Val),
      r ∈ a.rows → r.annotator_id.eqStr u = true →
      r.sentence_id.toStr = v.toStr →
      get_next_sentence_id d a u k ≠ some v.toStr := by
  intro d a u k r v hr hu hs h
  apply (get_next_mem h).2
  unfold alreadyDone userAnn
  rw [List.mem_dedup]
  exact List.mem_map.mpr ⟨r, List.mem_filter.mpr ⟨hr, hu⟩, hs⟩

/-- Witness for C10: the integer dataset id 10 is never served to alice,
who annotated the string id 10. -/
theorem c10_witness :
    get_next_sentence_id exDataInt exAnnStr "alice" 0 ≠
      some (Val.int 10).toStr :=
  c10_membership_up_to_string exDataInt exAnnStr "alice" 0
    ⟨Val.str "alice", Val.str "10", Val.str "Positive", Val.str "t"⟩
    (Val.int 10) (by decide) (by decide) (by decide)
